import Mathlib

/-!
Verification of two model-provider adapters of this repository:

* `models/huggingface_tei/models/text_embedding/text_embedding.py`
  (`HuggingfaceTeiTextEmbeddingModel._invoke`, `_calc_response_usage`):
  token-estimate based truncation, chunked batching, usage accounting.

* `models/minimax/models/llm/chat_completion.py` (`MinimaxChatCompletion`):
  request building (`generate` up to the HTTP POST), vendor error code
  mapping (`_handle_error`), and the streaming line decoder
  (`_handle_stream_chat_generate_response`).

Python machine-level details are embedded as follows: `int`/`len` become
`Nat`, Python float division is modelled as exact rational (`ℚ`) division
with `int(·)` on a non-negative value as `Nat.floor`, Python string
slicing by code points becomes `String.take`/`String.drop`, exceptions
become `Except`/error-carrying results, and the HTTP server plus the GPT2
tokenizer are abstracted as function parameters.
-/

namespace Tei

/-- Embedding of the truncation step of `_invoke` (text_embedding.py, lines
76-83): `num_tokens = self._get_num_tokens_by_gpt2(text)`; if
`num_tokens >= context_size` then
`cutoff = int(len(text) * (context_size / num_tokens))` and the text is
replaced by `text[0:cutoff]`, else the text passes through. The tokenizer
is abstracted as `est`. -/
def truncateText (est : String → Nat) (context_size : Nat) (text : String) : String :=
  if context_size ≤ est text then
    text.take ⌊(text.length : ℚ) * ((context_size : ℚ) / ((est text : Nat) : ℚ))⌋₊
  else
    text

/-- Embedding of the slicing loop of `_invoke` (lines 88-91):
`for i in range(0, len(inputs), max_chunks): inputs[i : i + max_chunks]`.
For `max_chunks ≥ 1`, `range(0, n, M)` has `(n + M - 1) / M` elements and
its `k`-th element is `k * M`. -/
def pyChunks {α : Type} (inputs : List α) (max_chunks : Nat) : List (List α) :=
  (List.range ((inputs.length + max_chunks - 1) / max_chunks)).map
    (fun k => (inputs.drop (k * max_chunks)).take max_chunks)

/-- Result of `_invoke`: the embeddings, the usage fields produced by
`_calc_response_usage` (`tokens` and `total_tokens` both set to the
accumulated `used_tokens`), and the payload of every HTTP POST issued, in
issue order. -/
structure TeiResult (E : Type) where
  embeddings : List E
  tokens : Nat
  total_tokens : Nat
  calls : List (List String)
deriving Repr, DecidableEq

/-- Embedding of `_invoke` (lines 69-104). `server` abstracts
`TeiHelper.invoke_embeddings` composed with the extraction
`[e["embedding"] for e in results["data"]]`: it maps one chunk payload to
the list of embedding vectors of that chunk. `used_tokens` is accumulated
over the original texts before truncation (lines 77, 85); the chunks are
posted sequentially and extended into `batched_embeddings` (lines 90-95). -/
def teiInvoke {E : Type} (est : String → Nat) (context_size max_chunks : Nat)
    (server : List String → List E) (texts : List String) : TeiResult E :=
  let inputs := texts.map (truncateText est context_size)
  let used_tokens := texts.foldl (fun acc t => acc + est t) 0
  let chunks := pyChunks inputs max_chunks
  let batched_embeddings := chunks.foldl (fun acc c => acc ++ server c) []
  { embeddings := batched_embeddings
    tokens := used_tokens
    total_tokens := used_tokens
    calls := chunks }

theorem pyChunks_nil {α : Type} (M : Nat) : pyChunks ([] : List α) M = [] := by
  rcases M with _ | m
  · simp [pyChunks]
  · have h : m / (m + 1) = 0 := Nat.div_eq_of_lt (by omega)
    simp [pyChunks, h]

theorem pyChunks_cons {α : Type} (M : Nat) (hM : 1 ≤ M) (x : α) (xs : List α) :
    pyChunks (x :: xs) M = (x :: xs).take M :: pyChunks ((x :: xs).drop M) M := by
  have hcount : ((x :: xs).length + M - 1) / M
      = (((x :: xs).drop M).length + M - 1) / M + 1 := by
    simp only [List.length_cons, List.length_drop]
    rcases le_or_lt (xs.length + 1) M with h | h
    · have h1 : (xs.length + 1 + M - 1) / M = 1 :=
        Nat.div_eq_of_lt_le (by omega) (by omega)
      have h2 : (xs.length + 1 - M + M - 1) / M = 0 :=
        Nat.div_eq_of_lt (by omega)
      omega
    · have h1 : xs.length + 1 + M - 1 = (xs.length + 1 - 1) + M := by omega
      have h2 : xs.length + 1 - M + M - 1 = xs.length + 1 - 1 := by omega
      rw [h1, h2, Nat.add_div_right _ (by omega)]
  rw [pyChunks, hcount, List.range_succ_eq_map]
  simp only [List.map_cons, List.map_map, Nat.zero_mul, List.drop_zero]
  refine congrArg (_ :: ·) ?_
  rw [pyChunks]
  have hfun : ((fun k => List.take M (List.drop (k * M) (x :: xs))) ∘ Nat.succ)
      = fun k => List.take M (List.drop (k * M) (List.drop M (x :: xs))) := by
    funext k
    simp only [Function.comp_apply, Nat.succ_mul, Nat.add_comm (k * M) M,
      ← List.drop_drop]
  rw [hfun]

theorem pyChunks_flatten_aux {α : Type} (M : Nat) (hM : 1 ≤ M) :
    ∀ (n : Nat) (xs : List α), xs.length ≤ n → (pyChunks xs M).flatten = xs := by
  intro n
  induction n with
  | zero =>
    intro xs hxs
    have : xs = [] := List.eq_nil_of_length_eq_zero (by omega)
    rw [this, pyChunks_nil]
    rfl
  | succ n ih =>
    intro xs hxs
    match xs with
    | [] => rw [pyChunks_nil]; rfl
    | x :: xs =>
      have hlen : ((x :: xs).drop M).length ≤ n := by
        simp only [List.length_drop, List.length_cons]
        simp only [List.length_cons] at hxs
        omega
      rw [pyChunks_cons M hM, List.flatten_cons, ih _ hlen,
        List.take_append_drop]

theorem pyChunks_flatten {α : Type} (M : Nat) (hM : 1 ≤ M) (xs : List α) :
    (pyChunks xs M).flatten = xs :=
  pyChunks_flatten_aux M hM xs.length xs le_rfl

theorem pyChunks_mem_length_le {α : Type} (M : Nat) (xs : List α) :
    ∀ c ∈ pyChunks xs M, c.length ≤ M := by
  intro c hc
  simp only [pyChunks, List.mem_map, List.mem_range] at hc
  obtain ⟨k, _, rfl⟩ := hc
  simp only [List.length_take]
  exact min_le_left _ _

theorem pyChunks_length {α : Type} (M : Nat) (xs : List α) :
    (pyChunks xs M).length = (xs.length + M - 1) / M := by
  simp [pyChunks]

theorem foldl_add_est (est : String → Nat) :
    ∀ (texts : List String) (a : Nat),
      texts.foldl (fun acc t => acc + est t) a = a + (texts.map est).sum := by
  intro texts
  induction texts with
  | nil => intro a; simp
  | cons t ts ih => intro a; simp [ih, Nat.add_assoc]

theorem foldl_append_server {α β : Type} (g : α → List β) :
    ∀ (l : List α) (init : List β),
      l.foldl (fun acc c => acc ++ g c) init = init ++ (l.map g).flatten := by
  intro l
  induction l with
  | nil => intro init; simp
  | cons c cs ih => intro init; simp [ih]

theorem mk_length (l : List Char) : (String.mk l).length = l.length := rfl

theorem floor_ratio_eq_div (L C e : Nat) :
    ⌊(L : ℚ) * ((C : ℚ) / (e : ℚ))⌋₊ = L * C / e := by
  have key : (L : ℚ) * ((C : ℚ) / (e : ℚ)) = ((L * C : Nat) : ℚ) / ((e : Nat) : ℚ) := by
    push_cast
    ring
  rw [key, Nat.floor_div_eq_div]

theorem div_ratio_le (L C e : Nat) (h : C ≤ e) : L * C / e ≤ L := by
  rcases Nat.eq_zero_or_pos e with he | he
  · subst he
    simp
  · calc L * C / e ≤ L * e / e := Nat.div_le_div_right (Nat.mul_le_mul_left L h)
    _ = L := Nat.mul_div_cancel L he

end Tei


/-- C2: in `_invoke`, a text whose estimated token count is at least the
context size `C` is replaced by its prefix of exactly
`floor(len(text) * C / estimate)` characters; a text with estimate below
`C` passes through unmodified; the empty text always passes through
unchanged (with a zero estimate when the tokenizer reports zero, and no
error is possible in this stage). -/
theorem tei_truncation (est : String → Nat) (C : Nat) (text : String) :
    (C ≤ est text →
      Tei.truncateText est C text = text.take (text.length * C / est text) ∧
      (Tei.truncateText est C text).length = text.length * C / est text) ∧
    (est text < C → Tei.truncateText est C text = text) ∧
    Tei.truncateText est C "" = "" := by
  refine ⟨fun h => ?_, fun h => ?_, ?_⟩
  · have hcut := Tei.floor_ratio_eq_div text.length C (est text)
    have htake : Tei.truncateText est C text
        = text.take (text.length * C / est text) := by
      rw [Tei.truncateText, if_pos h, hcut]
    refine ⟨htake, ?_⟩
    rw [htake, String.take_eq, Tei.mk_length, List.length_take]
    have hle : text.length * C / est text ≤ text.length :=
      Tei.div_ratio_le text.length C (est text) h
    have hdata : text.1.length = text.length := rfl
    omega
  · rw [Tei.truncateText, if_neg (not_le.mpr h)]
  · rw [Tei.truncateText]
    split
    · rw [String.take_eq]
      have h0 : ("" : String).1 = [] := rfl
      rw [h0, List.take_nil]
    · rfl

/-- Witness for C2 at `est = String.length`, `C = 2`, `text = "abcd"`:
the estimate `4` is at least `2`, so the theorem yields the truncated
prefix `"abcd".take (4 * 2 / 4)`. -/
theorem tei_truncation_witness :
    Tei.truncateText (fun s => s.length) 2 "abcd"
      = "abcd".take ("abcd".length * 2 / (fun s : String => s.length) "abcd") :=
  ((tei_truncation (fun s => s.length) 2 "abcd").1 (by decide)).1

/-- C1: for `N` input texts and max chunk size `M ≥ 1`, `_invoke` splits
the (possibly truncated) texts into `ceil(N / M)` chunks of at most `M`
texts each, in original input order; exactly one HTTP call is issued per
chunk, sequentially (`calls` is the list of POSTed payloads in issue
order); when the server returns one embedding per text in request order,
the concatenation of per-chunk results yields one embedding per input
text in original order; for `N = 0` there are zero HTTP calls, an empty
embeddings list and zero usage tokens. -/
theorem tei_invoke_batching {E : Type} (est : String → Nat) (C M : Nat)
    (f : String → E) (texts : List String) (hM : 1 ≤ M) :
    (Tei.teiInvoke est C M (fun ts => ts.map f) texts).calls.length
      = texts.length ⌈/⌉ M ∧
    (∀ c ∈ (Tei.teiInvoke est C M (fun ts => ts.map f) texts).calls,
      c.length ≤ M) ∧
    (Tei.teiInvoke est C M (fun ts => ts.map f) texts).calls.flatten
      = texts.map (Tei.truncateText est C) ∧
    (Tei.teiInvoke est C M (fun ts => ts.map f) texts).embeddings
      = (texts.map (Tei.truncateText est C)).map f ∧
    (Tei.teiInvoke est C M (fun ts => ts.map f) texts).embeddings.length
      = texts.length ∧
    (texts = [] →
      (Tei.teiInvoke est C M (fun ts => ts.map f) texts).calls = [] ∧
      (Tei.teiInvoke est C M (fun ts => ts.map f) texts).embeddings = [] ∧
      (Tei.teiInvoke est C M (fun ts => ts.map f) texts).tokens = 0) := by
  have hcalls : (Tei.teiInvoke est C M (fun ts => ts.map f) texts).calls
      = Tei.pyChunks (texts.map (Tei.truncateText est C)) M := rfl
  have hemb : (Tei.teiInvoke est C M (fun ts => ts.map f) texts).embeddings
      = (texts.map (Tei.truncateText est C)).map f := by
    show (Tei.pyChunks (texts.map (Tei.truncateText est C)) M).foldl
        (fun acc c => acc ++ c.map f) [] = _
    rw [Tei.foldl_append_server, List.nil_append, ← List.map_flatten,
      Tei.pyChunks_flatten M hM]
  refine ⟨?_, ?_, ?_, hemb, ?_, ?_⟩
  · rw [hcalls, Tei.pyChunks_length, List.length_map,
      Nat.ceilDiv_eq_add_pred_div]
  · rw [hcalls]
    exact Tei.pyChunks_mem_length_le M _
  · rw [hcalls, Tei.pyChunks_flatten M hM]
  · rw [hemb, List.length_map, List.length_map]
  · rintro rfl
    refine ⟨?_, ?_, rfl⟩
    · rw [hcalls]
      exact Tei.pyChunks_nil M
    · rw [hemb]
      rfl

/-- Witness for C1 at `M = 2` and three texts: the chunk count equals
`3 ⌈/⌉ 2`. -/
theorem tei_invoke_batching_witness :
    (Tei.teiInvoke (fun s => s.length) 100 2
        (fun ts => ts.map (fun s => s.length)) ["a", "bb", "ccc"]).calls.length
      = (["a", "bb", "ccc"] : List String).length ⌈/⌉ 2 :=
  (tei_invoke_batching (fun s => s.length) 100 2 (fun s => s.length)
    ["a", "bb", "ccc"] (by decide)).1

/-- C9: the `tokens` and `total_tokens` usage fields reported by `_invoke`
both equal the sum of the pre-truncation token estimates of the original
input texts (the estimate of each text is accumulated before any
truncation, so truncated texts still contribute their full estimate). -/
theorem tei_usage_pre_truncation {E : Type} (est : String → Nat)
    (C M : Nat) (server : List String → List E) (texts : List String) :
    (Tei.teiInvoke est C M server texts).tokens = (texts.map est).sum ∧
    (Tei.teiInvoke est C M server texts).total_tokens
      = (texts.map est).sum := by
  have h : texts.foldl (fun acc t => acc + est t) 0 = (texts.map est).sum := by
    rw [Tei.foldl_add_est, Nat.zero_add]
  exact ⟨h, h⟩

namespace Minimax

/-- Modelled from the spec: the message roles of `MinimaxMessage.Role`
(models/llm/types.py is not under src/). Spec data model: role is an enum
over system, user, assistant. -/
inductive Role where
  | system
  | user
  | assistant
deriving DecidableEq, Repr

/-- Usage dictionary attached to a message, as built in chat_completion.py
lines 104-108 and 130: `prompt_tokens`, `completion_tokens`,
`total_tokens`. -/
structure Usage where
  prompt_tokens : Nat
  completion_tokens : Nat
  total_tokens : Nat
deriving DecidableEq, Repr

/-- Modelled from the spec: `MinimaxMessage` (models/llm/types.py is not
under src/). Spec data model: role, content, optional usage, optional
stop reason. -/
structure MinimaxMessage where
  role : Role
  content : String
  usage : Option Usage := none
  stop_reason : Option String := none
deriving DecidableEq, Repr

/-- Modelled from the spec: the per-message dictionary produced by
`MinimaxMessage.to_completion_dict` (models/llm/types.py is not under
src/); the spec shows the messages array entries as role plus content. -/
structure CompletionDict where
  role : Role
  content : String
deriving DecidableEq, Repr

/-- Modelled from the spec: `MinimaxMessage.to_completion_dict`
(models/llm/types.py is not under src/), faithful to the spec data model:
the message's role and content are sent. -/
def MinimaxMessage.to_completion_dict (m : MinimaxMessage) : CompletionDict :=
  { role := m.role, content := m.content }

/-- Modelled from the spec: the error classes imported from
models/llm/errors.py (not under src/), one tag per class; the spec error
taxonomy maps InvalidAuthentication to Unauthorized. -/
inductive MinimaxError where
  | BadRequest
  | InsufficientAccountBalance
  | InternalServer
  | InvalidAPIKey
  | InvalidAuthentication
  | RateLimitReached
deriving DecidableEq, Repr

/-- Embedding of `_handle_error` (chat_completion.py lines 80-92): the
vendor status code decides which error class is raised; the message text
is passed through unchanged by the caller. -/
def handleError (code : Int) : MinimaxError :=
  if code = 1000 ∨ code = 1001 ∨ code = 1013 ∨ code = 1027 then
    .InternalServer
  else if code = 1002 ∨ code = 1039 then
    .RateLimitReached
  else if code = 1004 then
    .InvalidAuthentication
  else if code = 1008 then
    .InsufficientAccountBalance
  else if code = 2013 then
    .BadRequest
  else
    .InternalServer

/-- Python values as they can appear in the `model_parameters` dict:
integers, floats (modelled as exact rationals) and strings. `isinstance(v,
int)` holds exactly for the `int` constructor and `isinstance(v, float)`
exactly for the `float` constructor. -/
inductive PyVal where
  | int (n : Int)
  | float (q : ℚ)
  | str (s : String)
deriving DecidableEq, Repr

/-- Optional fields merged into the request body from `extra_kwargs`
(chat_completion.py lines 43-49). -/
structure ExtraKwargs where
  tokens_to_generate : Option Int
  temperature : Option ℚ
  top_p : Option ℚ
deriving DecidableEq, Repr

/-- Embedding of the `extra_kwargs` construction (lines 43-49):
`"max_tokens" in model_parameters and isinstance(model_parameters
["max_tokens"], int)` forwards the value as `tokens_to_generate`;
`temperature` and `top_p` are forwarded only when present and of float
type. The dict is modelled as an association list with first-key lookup. -/
def buildExtraKwargs (model_parameters : List (String × PyVal)) : ExtraKwargs :=
  { tokens_to_generate :=
      match model_parameters.lookup "max_tokens" with
      | some (.int n) => some n
      | _ => none
    temperature :=
      match model_parameters.lookup "temperature" with
      | some (.float q) => some q
      | _ => none
    top_p :=
      match model_parameters.lookup "top_p" with
      | some (.float q) => some q
      | _ => none }

/-- The `role_meta` constant of the request body (line 51). -/
structure RoleMeta where
  user_name : String
  bot_name : String
deriving DecidableEq, Repr

/-- Default prompt used when no system message supplies one (line 50). -/
def defaultPrompt : String := "你是一个什么都懂的专家"

/-- Default role meta (line 51). -/
def defaultRoleMeta : RoleMeta := { user_name := "我", bot_name := "专家" }

/-- JSON body of the chat completion POST (lines 62-69). -/
structure RequestBody where
  model : String
  messages : List CompletionDict
  prompt : String
  role_meta : RoleMeta
  stream : Bool
  extra : ExtraKwargs
deriving DecidableEq, Repr

/-- The HTTP POST that `generate` issues: target URL and JSON body. -/
structure ChatRequest where
  url : String
  body : RequestBody
deriving DecidableEq, Repr

/-- Embedding of `endpoint_url.rstrip('/')` (line 40): every trailing
slash is removed. -/
def rstripSlash (s : String) : String :=
  s.dropRightWhile (fun c => c = '/')

/-- Embedding of `generate` (chat_completion.py lines 21-71) up to the
HTTP POST: credential check (line 37), URL construction (lines 40-41),
parameter filtering (lines 43-49), default prompt (line 50), emptiness
check (lines 52-53), leading system message extraction (lines 54-57),
second emptiness check (lines 58-59) and body construction (lines 60-69).
An `Except.error` result means the corresponding exception is raised
before any HTTP call is made; an `Except.ok` result is the request that
is then POSTed. -/
def buildRequest (model api_key group_id endpoint_url : String)
    (prompt_messages : List MinimaxMessage)
    (model_parameters : List (String × PyVal)) (stream : Bool) :
    Except MinimaxError ChatRequest :=
  if api_key = "" ∨ group_id = "" then
    .error .InvalidAPIKey
  else
    let base_url := rstripSlash endpoint_url
    let url := base_url ++ "/v1/text/chatcompletion?GroupId=" ++ group_id
    let extra := buildExtraKwargs model_parameters
    match prompt_messages with
    | [] => .error .BadRequest
    | m0 :: tl =>
      let promptAndMsgs :=
        if m0.role = Role.system then
          ((if m0.content ≠ "" then m0.content else defaultPrompt), tl)
        else
          (defaultPrompt, m0 :: tl)
      match promptAndMsgs with
      | (prompt, msgs) =>
        if msgs = [] then
          .error .BadRequest
        else
          .ok { url := url
                body := { model := model
                          messages := msgs.map MinimaxMessage.to_completion_dict
                          prompt := prompt
                          role_meta := defaultRoleMeta
                          stream := stream
                          extra := extra } }

end Minimax

namespace Minimax

/-- The `base_resp` object of a response record
(`data["base_resp"]["status_code"]`, `["status_msg"]`, lines 123-125);
when `base_resp` is present both fields are read. -/
structure BaseResp where
  status_code : Int
  status_msg : String
deriving DecidableEq, Repr

/-- One entry of the `choices` array of a streamed record: the terminal
branch reads `choice["finish_reason"]` (line 131), the delta branch reads
`choice["delta"]` (line 138); `none` models an absent key, whose direct
access raises `KeyError`. -/
structure Choice where
  finish_reason : Option String := none
  delta : Option String := none
deriving DecidableEq, Repr

/-- One decoded JSON record of the streamed response body. `none` in an
`Option` field models an absent key: `data["reply"]` (line 127) and
`data["usage"]["total_tokens"]` (line 128) and `data["choices"]` (line
131) are direct accesses that raise `KeyError` when absent, while
`data.get("choices", [])` (line 134) defaults to the empty list. `usage`
is the value of `data["usage"]["total_tokens"]` when both levels are
present. -/
structure StreamRecord where
  base_resp : Option BaseResp := none
  reply : Option String := none
  usage : Option Nat := none
  choices : Option (List Choice) := none
deriving DecidableEq, Repr

/-- Failure mode of the streaming generator: an exception raised while
decoding. `api` carries the error raised by `_handle_error` for an
embedded vendor status code; `keyError` and `indexError` are the Python
`KeyError`/`IndexError` raised by a direct access on a missing key or an
empty `choices` array; `jsonError` is a `json.loads` failure. -/
inductive StreamError where
  | api (kind : MinimaxError) (msg : String)
  | keyError
  | indexError
  | jsonError
deriving DecidableEq, Repr

/-- What processing one decoded record does to the generator: read the
next line, yield delta messages then read on, yield one terminal message
then return, or raise after having yielded some messages. -/
inductive StepAction where
  | skip
  | emit (ms : List MinimaxMessage)
  | stop (m : MinimaxMessage)
  | failed (ms : List MinimaxMessage) (e : StreamError)
deriving DecidableEq, Repr

/-- Embedding of the delta loop (lines 137-139): for each choice, read
`choice["delta"]` and yield an assistant message with that content and no
usage or stop reason; an absent `delta` raises `KeyError` after the
earlier choices of the record have been yielded. -/
def emitDeltas : List Choice → List MinimaxMessage × Option StreamError
  | [] => ([], none)
  | c :: cs =>
    match c.delta with
    | none => ([], some .keyError)
    | some d =>
      match emitDeltas cs with
      | (ms, e) =>
        ({ role := Role.assistant, content := d } :: ms, e)

/-- Embedding of the reply handling of one record (lines 127-139): a
record with a non-empty `reply` is terminal — `total_tokens` is read from
`usage`, the yielded message has empty content, the usage triple and
`choices[0]["finish_reason"]` as stop reason, and the generator returns;
otherwise the record's `choices` (defaulted to `[]`) are yielded as
deltas, or the record is skipped when there are none. -/
def processReply (r : StreamRecord) : StepAction :=
  match r.reply with
  | none => .failed [] .keyError
  | some rep =>
    if rep ≠ "" then
      match r.usage with
      | none => .failed [] .keyError
      | some total_tokens =>
        match r.choices with
        | none => .failed [] .keyError
        | some [] => .failed [] .indexError
        | some (c0 :: _) =>
          match c0.finish_reason with
          | none => .failed [] .keyError
          | some fr =>
            .stop { role := Role.assistant
                    content := ""
                    usage := some { prompt_tokens := 0
                                    completion_tokens := total_tokens
                                    total_tokens := total_tokens }
                    stop_reason := some fr }
    else
      match r.choices.getD [] with
      | [] => .skip
      | c :: cs =>
        match emitDeltas (c :: cs) with
        | (ms, none) => .emit ms
        | (ms, some e) => .failed ms e

/-- Embedding of the per-record part of
`_handle_stream_chat_generate_response` (lines 122-139): a record whose
`base_resp` carries a non-zero status code raises the error mapped by
`_handle_error` before anything is yielded; otherwise the reply handling
runs. -/
def processRecord (r : StreamRecord) : StepAction :=
  match r.base_resp with
  | some br =>
    if br.status_code ≠ 0 then
      .failed [] (.api (handleError br.status_code) br.status_msg)
    else
      processReply r
  | none => processReply r

/-- Embedding of Python `str.strip()`: whitespace characters are removed
from both ends. -/
def pyStrip (s : String) : String :=
  String.mk
    (((s.data.dropWhile Char.isWhitespace).reverse.dropWhile
        Char.isWhitespace).reverse)

/-- Embedding of the line preprocessing (lines 120-121): a line starting
with `"data: "` (its first six characters equal that literal) is sliced
after the first six characters and stripped of surrounding whitespace. -/
def stripLine (line : String) : String :=
  if line.take 6 = "data: " then pyStrip (line.drop 6) else line

/-- Embedding of the full streaming loop of
`_handle_stream_chat_generate_response` (lines 116-139) over the decoded
lines of the response body: blank lines are skipped (line 117-118), each
remaining line is preprocessed and decoded by `loads` (an abstraction of
`json.loads`; `none` models a decode failure, which raises), and the
resulting record drives the generator. The result is the list of yielded
messages in order, paired with the error that terminated the generator,
if any; `none` means normal termination (terminal record or exhausted
input). Once the generator returns or raises, no further line is read. -/
def decodeLines (loads : String → Option StreamRecord) :
    List String → List MinimaxMessage × Option StreamError
  | [] => ([], none)
  | line :: rest =>
    if line = "" then
      decodeLines loads rest
    else
      match loads (stripLine line) with
      | none => ([], some .jsonError)
      | some r =>
        match processRecord r with
        | .skip => decodeLines loads rest
        | .emit ms =>
          match decodeLines loads rest with
          | (ms2, e) => (ms ++ ms2, e)
        | .stop m => ([m], none)
        | .failed ms e => (ms, some e)

end Minimax

namespace Minimax

/-- Decoded form of the JSON record `{"choices":[{"delta":"Hi"}]}`: no
`base_resp`, no `reply` key, no `usage`, one choice carrying only a
delta. -/
def recDelta : StreamRecord :=
  { choices := some [{ delta := some "Hi" }] }

/-- Decoded form of `{"reply":"","choices":[{"delta":"Hi"}]}`: like
`recDelta` but with an explicit empty `reply` key present. -/
def recDeltaReply : StreamRecord :=
  { reply := some "", choices := some [{ delta := some "Hi" }] }

/-- Decoded form of
`{"reply":"Hi","usage":{"total_tokens":3},"choices":[{"finish_reason":"stop"}]}`. -/
def recFinal : StreamRecord :=
  { reply := some "Hi", usage := some 3
    choices := some [{ finish_reason := some "stop" }] }

/-- The JSON text `{"choices":[{"delta":"Hi"}]}`. -/
def jsonDelta : String := "\x7b\"choices\":[\x7b\"delta\":\"Hi\"\x7d]\x7d"

/-- The JSON text `{"reply":"","choices":[{"delta":"Hi"}]}`. -/
def jsonDeltaReply : String :=
  "\x7b\"reply\":\"\",\"choices\":[\x7b\"delta\":\"Hi\"\x7d]\x7d"

/-- The JSON text
`{"reply":"Hi","usage":{"total_tokens":3},"choices":[{"finish_reason":"stop"}]}`. -/
def jsonFinal : String :=
  "\x7b\"reply\":\"Hi\",\"usage\":\x7b\"total_tokens\":3\x7d,\"choices\":[\x7b\"finish_reason\":\"stop\"\x7d]\x7d"

/-- The streamed line `data: ` followed by `jsonDelta`. -/
def lineDelta : String := "data: " ++ jsonDelta

/-- The streamed line `data: ` followed by `jsonDeltaReply`. -/
def lineDeltaReply : String := "data: " ++ jsonDeltaReply

/-- The streamed line `data: ` followed by `jsonFinal`. -/
def lineFinal : String := "data: " ++ jsonFinal

/-- A concrete `json.loads` abstraction decoding exactly the three JSON
payloads of the worked example, per standard JSON semantics. -/
def demoLoads (s : String) : Option StreamRecord :=
  if s = jsonDelta then some recDelta
  else if s = jsonDeltaReply then some recDeltaReply
  else if s = jsonFinal then some recFinal
  else none

end Minimax

/-- C3 counterexample: on exactly the two claimed input lines the decoder
yields no message at all and raises `KeyError`, because processing the
first record evaluates `data["reply"]` (chat_completion.py line 127) and
that record has no `reply` key; the claimed partial and terminal messages
are never produced. -/
theorem minimax_stream_example_counterexample :
    Minimax.decodeLines Minimax.demoLoads [Minimax.lineDelta, Minimax.lineFinal]
      = ([], some Minimax.StreamError.keyError) := by
  decide

/-- C3 amended: if the partial record also carries an (empty) `reply`
key — input lines `data: {"reply":"","choices":[{"delta":"Hi"}]}` then
`data: {"reply":"Hi","usage":{"total_tokens":3},"choices":[{"finish_reason":"stop"}]}` —
the decoder yields first one partial assistant message with content
`"Hi"` (no usage, no stop reason), then one terminal message with
`total_tokens = 3` and stop reason `"stop"` (and empty content), and the
sequence terminates with no further event and no error. -/
theorem minimax_stream_example_amended :
    Minimax.decodeLines Minimax.demoLoads
        [Minimax.lineDeltaReply, Minimax.lineFinal]
      = ([{ role := Minimax.Role.assistant, content := "Hi" },
          { role := Minimax.Role.assistant, content := ""
            usage := some { prompt_tokens := 0, completion_tokens := 3
                            total_tokens := 3 }
            stop_reason := some "stop" }], none) := by
  decide

/-- C4: when a decoded record carries `base_resp` with a non-zero status
code, the decoder terminates at that line with the error mapped by
`_handle_error`, yields no event from that record, and reads no further
line (the result does not depend on `rest`); with status code 1004 the
raised error is the invalid-authentication (Unauthorized) error. -/
theorem minimax_stream_error_aborts (loads : String → Option Minimax.StreamRecord)
    (line : String) (rest : List String) (r : Minimax.StreamRecord)
    (br : Minimax.BaseResp) (hline : line ≠ "")
    (hload : loads (Minimax.stripLine line) = some r)
    (hbr : r.base_resp = some br) (hcode : br.status_code ≠ 0) :
    Minimax.decodeLines loads (line :: rest)
      = ([], some (.api (Minimax.handleError br.status_code) br.status_msg)) ∧
    (br.status_code = 1004 →
      Minimax.decodeLines loads (line :: rest)
        = ([], some (.api Minimax.MinimaxError.InvalidAuthentication
            br.status_msg))) := by
  have hstep : Minimax.processRecord r
      = .failed [] (.api (Minimax.handleError br.status_code) br.status_msg) := by
    rw [Minimax.processRecord, hbr]
    simp only [hcode, if_pos, ne_eq, not_false_eq_true]
  have h1 : Minimax.decodeLines loads (line :: rest)
      = ([], some (.api (Minimax.handleError br.status_code) br.status_msg)) := by
    rw [Minimax.decodeLines, if_neg hline, hload]
    simp only [hstep]
  refine ⟨h1, fun h4 => ?_⟩
  have hmap : Minimax.handleError 1004 = .InvalidAuthentication := by decide
  rw [h1, h4, hmap]

/-- Witness for C4 at a one-record stream whose record carries
`base_resp.status_code = 1004`, followed by one more line that is never
read. -/
theorem minimax_stream_error_aborts_witness :
    Minimax.decodeLines
        (fun s =>
          if s = "e" then
            some { base_resp := some { status_code := 1004
                                       status_msg := "unauthorized" } }
          else none)
        ["e", "ignored"]
      = ([], some (.api (Minimax.handleError 1004) "unauthorized")) :=
  (minimax_stream_error_aborts
    (fun s =>
      if s = "e" then
        some { base_resp := some { status_code := 1004
                                   status_msg := "unauthorized" } }
      else none)
    "e" ["ignored"]
    { base_resp := some { status_code := 1004, status_msg := "unauthorized" } }
    { status_code := 1004, status_msg := "unauthorized" }
    (by decide) (by decide) rfl (by decide)).1

/-- C10: whenever the stream decoder treats a record as terminal (it
yields a message and returns), the yielded message has empty content and
assistant role, and only its usage and stop reason fields are populated;
the reply text itself is never carried in the terminal event. -/
theorem minimax_terminal_content_empty (r : Minimax.StreamRecord)
    (m : Minimax.MinimaxMessage)
    (h : Minimax.processRecord r = Minimax.StepAction.stop m) :
    m.content = "" ∧ m.role = Minimax.Role.assistant ∧
    m.usage.isSome = true ∧ m.stop_reason.isSome = true := by
  unfold Minimax.processRecord Minimax.processReply at h
  repeat' split at h
  all_goals simp_all
  all_goals subst h
  all_goals simp

/-- Witness for C10 at the worked terminal record: `processRecord`
returns `stop` with the expected message, whose content is empty. -/
theorem minimax_terminal_content_empty_witness :
    ({ role := Minimax.Role.assistant, content := ""
       usage := some { prompt_tokens := 0, completion_tokens := 3
                       total_tokens := 3 }
       stop_reason := some "stop" } : Minimax.MinimaxMessage).content = ""
      ∧ ({ role := Minimax.Role.assistant, content := ""
           usage := some { prompt_tokens := 0, completion_tokens := 3
                           total_tokens := 3 }
           stop_reason := some "stop" } : Minimax.MinimaxMessage).role
          = Minimax.Role.assistant
      ∧ ({ role := Minimax.Role.assistant, content := ""
           usage := some { prompt_tokens := 0, completion_tokens := 3
                           total_tokens := 3 }
           stop_reason := some "stop" } : Minimax.MinimaxMessage).usage.isSome
          = true
      ∧ ({ role := Minimax.Role.assistant, content := ""
           usage := some { prompt_tokens := 0, completion_tokens := 3
                           total_tokens := 3 }
           stop_reason := some "stop" } : Minimax.MinimaxMessage).stop_reason.isSome
          = true :=
  minimax_terminal_content_empty Minimax.recFinal _ (by decide)

/-- C8: `_handle_error` is a total mapping from vendor status codes to a
single error kind: 1000, 1001, 1013 and 1027 map to InternalServer; 1002
and 1039 map to RateLimitReached; 1004 maps to InvalidAuthentication
(Unauthorized); 1008 maps to InsufficientAccountBalance; 2013 maps to
BadRequest; every other code maps to InternalServer. -/
theorem minimax_error_mapping (code : Int) :
    ((code = 1000 ∨ code = 1001 ∨ code = 1013 ∨ code = 1027) →
      Minimax.handleError code = .InternalServer) ∧
    ((code = 1002 ∨ code = 1039) →
      Minimax.handleError code = .RateLimitReached) ∧
    (code = 1004 → Minimax.handleError code = .InvalidAuthentication) ∧
    (code = 1008 → Minimax.handleError code = .InsufficientAccountBalance) ∧
    (code = 2013 → Minimax.handleError code = .BadRequest) ∧
    (code ∉ ([1000, 1001, 1013, 1027, 1002, 1039, 1004, 1008, 2013] : List Int)
      → Minimax.handleError code = .InternalServer) := by
  refine ⟨?_, ?_, ?_, ?_, ?_, ?_⟩
  · rintro (rfl | rfl | rfl | rfl) <;> decide
  · rintro (rfl | rfl) <;> decide
  · rintro rfl; decide
  · rintro rfl; decide
  · rintro rfl; decide
  · intro h
    simp only [List.mem_cons, List.not_mem_nil, or_false, not_or] at h
    obtain ⟨h1, h2, h3, h4, h5, h6, h7, h8, h9⟩ := h
    rw [Minimax.handleError]
    simp [h1, h2, h3, h4, h5, h6, h7, h8, h9]

/-- Witness for C8 at code 1004: the mapped kind is
InvalidAuthentication. -/
theorem minimax_error_mapping_witness :
    Minimax.handleError 1004 = .InvalidAuthentication :=
  (minimax_error_mapping 1004).2.2.1 rfl

/-- C5: `generate` raises the invalid-credential error when `api_key` or
`group_id` is empty; it raises BadRequest when the message list is empty,
or when it becomes empty after stripping a leading system message; in all
of these cases the result is an error, so no HTTP request is built or
issued. -/
theorem minimax_generate_preconditions (model api_key group_id endpoint_url : String)
    (msgs : List Minimax.MinimaxMessage)
    (params : List (String × Minimax.PyVal)) (stream : Bool) :
    ((api_key = "" ∨ group_id = "") →
      Minimax.buildRequest model api_key group_id endpoint_url msgs params stream
        = .error .InvalidAPIKey) ∧
    (api_key ≠ "" → group_id ≠ "" → msgs = [] →
      Minimax.buildRequest model api_key group_id endpoint_url msgs params stream
        = .error .BadRequest) ∧
    (∀ m0 : Minimax.MinimaxMessage, api_key ≠ "" → group_id ≠ "" →
      m0.role = Minimax.Role.system → msgs = [m0] →
      Minimax.buildRequest model api_key group_id endpoint_url msgs params stream
        = .error .BadRequest) := by
  refine ⟨fun h => ?_, fun h1 h2 h3 => ?_, fun m0 h1 h2 h3 h4 => ?_⟩
  · rw [Minimax.buildRequest, if_pos h]
  · subst h3
    rw [Minimax.buildRequest, if_neg (by tauto)]
  · subst h4
    rcases eq_or_ne m0.content "" with hc | hc <;>
      simp [Minimax.buildRequest, h1, h2, h3, hc]

/-- Witness for C5: empty message list with non-empty credentials yields
BadRequest. -/
theorem minimax_generate_preconditions_witness :
    Minimax.buildRequest "abab5.5-chat" "key" "group" "https://api.minimax.chat"
        [] [] false
      = .error .BadRequest :=
  (minimax_generate_preconditions "abab5.5-chat" "key" "group"
    "https://api.minimax.chat" [] [] false).2.1 (by decide) (by decide) rfl

/-- C6: with non-empty credentials and a first message of role system
followed by at least one more message, `generate` builds the request
whose `prompt` is the system message's content when that content is
non-empty and the default prompt otherwise, whose `messages` array
excludes the system message and carries the remaining messages in order,
and whose other fields are the fixed body fields. -/
theorem minimax_system_prompt (model api_key group_id endpoint_url : String)
    (m0 : Minimax.MinimaxMessage) (tl : List Minimax.MinimaxMessage)
    (params : List (String × Minimax.PyVal)) (stream : Bool)
    (hapi : api_key ≠ "") (hgid : group_id ≠ "")
    (hrole : m0.role = Minimax.Role.system) (htl : tl ≠ []) :
    Minimax.buildRequest model api_key group_id endpoint_url (m0 :: tl) params stream
      = .ok { url := Minimax.rstripSlash endpoint_url
                ++ "/v1/text/chatcompletion?GroupId=" ++ group_id
              body := { model := model
                        messages := tl.map Minimax.MinimaxMessage.to_completion_dict
                        prompt := if m0.content ≠ "" then m0.content
                                  else Minimax.defaultPrompt
                        role_meta := Minimax.defaultRoleMeta
                        stream := stream
                        extra := Minimax.buildExtraKwargs params } } := by
  rcases eq_or_ne m0.content "" with hc | hc <;>
    simp [Minimax.buildRequest, hapi, hgid, hrole, hc, htl]

/-- Witness for C6: a system message with content `"X"` followed by one
user message produces the request with `prompt` from the system message
and only the user message in the messages array. -/
theorem minimax_system_prompt_witness :
    Minimax.buildRequest "abab5.5-chat" "key" "group" "https://api.minimax.chat"
        [{ role := Minimax.Role.system, content := "X" },
         { role := Minimax.Role.user, content := "hello" }] [] false
      = .ok { url := Minimax.rstripSlash "https://api.minimax.chat"
                ++ "/v1/text/chatcompletion?GroupId=" ++ "group"
              body := { model := "abab5.5-chat"
                        messages :=
                          [({ role := Minimax.Role.user, content := "hello" }
                            : Minimax.MinimaxMessage)].map
                            Minimax.MinimaxMessage.to_completion_dict
                        prompt :=
                          if ({ role := Minimax.Role.system, content := "X" }
                              : Minimax.MinimaxMessage).content ≠ "" then
                            ({ role := Minimax.Role.system, content := "X" }
                              : Minimax.MinimaxMessage).content
                          else Minimax.defaultPrompt
                        role_meta := Minimax.defaultRoleMeta
                        stream := false
                        extra := Minimax.buildExtraKwargs [] } } :=
  minimax_system_prompt "abab5.5-chat" "key" "group" "https://api.minimax.chat"
    { role := Minimax.Role.system, content := "X" }
    [{ role := Minimax.Role.user, content := "hello" }] [] false
    (by decide) (by decide) rfl (by decide)

/-- C7: `generate` forwards `max_tokens` (renamed `tokens_to_generate`)
only when present with an int value, and `temperature` and `top_p` only
when present with a float value; an absent key, a value of the wrong
type, or an unrecognized key is silently dropped, and no other key is
forwarded (adding any unrecognized key leaves the forwarded parameters
unchanged; `ExtraKwargs` has no other field). -/
theorem minimax_parameter_filtering (params : List (String × Minimax.PyVal)) :
    (∀ n : Int, params.lookup "max_tokens" = some (.int n) →
      (Minimax.buildExtraKwargs params).tokens_to_generate = some n) ∧
    (∀ v, params.lookup "max_tokens" = some v → (∀ n : Int, v ≠ .int n) →
      (Minimax.buildExtraKwargs params).tokens_to_generate = none) ∧
    (params.lookup "max_tokens" = none →
      (Minimax.buildExtraKwargs params).tokens_to_generate = none) ∧
    (∀ q : ℚ, params.lookup "temperature" = some (.float q) →
      (Minimax.buildExtraKwargs params).temperature = some q) ∧
    (∀ v, params.lookup "temperature" = some v → (∀ q : ℚ, v ≠ .float q) →
      (Minimax.buildExtraKwargs params).temperature = none) ∧
    (params.lookup "temperature" = none →
      (Minimax.buildExtraKwargs params).temperature = none) ∧
    (∀ q : ℚ, params.lookup "top_p" = some (.float q) →
      (Minimax.buildExtraKwargs params).top_p = some q) ∧
    (∀ v, params.lookup "top_p" = some v → (∀ q : ℚ, v ≠ .float q) →
      (Minimax.buildExtraKwargs params).top_p = none) ∧
    (params.lookup "top_p" = none →
      (Minimax.buildExtraKwargs params).top_p = none) ∧
    (∀ (k : String) (v : Minimax.PyVal),
      k ≠ "max_tokens" → k ≠ "temperature" → k ≠ "top_p" →
      Minimax.buildExtraKwargs ((k, v) :: params)
        = Minimax.buildExtraKwargs params) := by
  refine ⟨?_, ?_, ?_, ?_, ?_, ?_, ?_, ?_, ?_, ?_⟩
  · intro n h
    simp [Minimax.buildExtraKwargs, h]
  · intro v h hne
    cases v with
    | int n => exact absurd rfl (hne n)
    | float q => simp [Minimax.buildExtraKwargs, h]
    | str s => simp [Minimax.buildExtraKwargs, h]
  · intro h
    simp [Minimax.buildExtraKwargs, h]
  · intro q h
    simp [Minimax.buildExtraKwargs, h]
  · intro v h hne
    cases v with
    | int n => simp [Minimax.buildExtraKwargs, h]
    | float q => exact absurd rfl (hne q)
    | str s => simp [Minimax.buildExtraKwargs, h]
  · intro h
    simp [Minimax.buildExtraKwargs, h]
  · intro q h
    simp [Minimax.buildExtraKwargs, h]
  · intro v h hne
    cases v with
    | int n => simp [Minimax.buildExtraKwargs, h]
    | float q => exact absurd rfl (hne q)
    | str s => simp [Minimax.buildExtraKwargs, h]
  · intro h
    simp [Minimax.buildExtraKwargs, h]
  · intro k v hk1 hk2 hk3
    have b1 : ("max_tokens" == k) = false := beq_eq_false_iff_ne.mpr (Ne.symm hk1)
    have b2 : ("temperature" == k) = false := beq_eq_false_iff_ne.mpr (Ne.symm hk2)
    have b3 : ("top_p" == k) = false := beq_eq_false_iff_ne.mpr (Ne.symm hk3)
    simp [Minimax.buildExtraKwargs, List.lookup_cons, b1, b2, b3]

/-- Witness for C7: with `max_tokens` an int and `temperature` a string,
only `tokens_to_generate` is forwarded. -/
theorem minimax_parameter_filtering_witness :
    (Minimax.buildExtraKwargs
        [("max_tokens", Minimax.PyVal.int 512),
         ("temperature", Minimax.PyVal.str "hot")]).tokens_to_generate
      = some 512 :=
  (minimax_parameter_filtering
    [("max_tokens", Minimax.PyVal.int 512),
     ("temperature", Minimax.PyVal.str "hot")]).1 512 (by decide)
